import Mathlib

/-!
Verification of the PortfolioAI frontend core against its design document.

The development shallowly embeds the client-side workflow code of the
repository: the chat intake state machine of
src/frontend/src/components/ChatPortfolio.jsx, the Profile workflow
coordinator of src/frontend/src/components/PortfolioViewer.js, the
localStorage draft persistence pattern used by that coordinator, the axios
configuration of src/frontend/src/utils/axios.js, and the portfolio export
helper of the PortfolioList component. Stateful handlers become pure
functions from an explicit coordinator state (plus the responses the
backend returns) to a new state and an ordered list of observable effects
(network calls, navigations, event dispatches, notifications).
-/

namespace PortfolioAI

/-- JavaScript truthiness of a string value: truthy iff nonempty. -/
def jsTruthyStr (s : String) : Bool := !s.isEmpty

/-- JavaScript truthiness of a possibly absent string (null, undefined and
the empty string are falsy). -/
def jsTruthyOptStr : Option String → Bool
  | none => false
  | some s => !s.isEmpty

/-- The whitespace characters String.prototype.trim strips (restricted to
the ASCII ones, the only ones arising here). -/
def isJsSpace (c : Char) : Bool :=
  c == ' ' || c == '\t' || c == '\n' || c == '\r' || c == '\x0b' || c == '\x0c'

/-- JS String.prototype.trim: strip whitespace from both ends. -/
def jsTrim (s : String) : String :=
  String.mk (((s.data.dropWhile isJsSpace).reverse.dropWhile isJsSpace).reverse)

/-- Splitting a character list at every character satisfying p; the JS
semantics of String.prototype.split with a single-character separator or a
single character class: adjacent separators and separators at either end
produce empty groups, and the empty string splits to one empty group. -/
def splitByChar (p : Char → Bool) : List Char → List (List Char)
  | [] => [[]]
  | c :: rest =>
    if p c then [] :: splitByChar p rest
    else
      match splitByChar p rest with
      | [] => [[c]]
      | group :: groups => (c :: group) :: groups

/-- JS String.prototype.split with a single-character string separator. -/
def jsSplitOnChar (sep : Char) (s : String) : List String :=
  (splitByChar (fun c => c == sep) s.data).map String.mk

/-- JS String.prototype.split with a character-class pattern. -/
def jsSplitAny (p : Char → Bool) (s : String) : List String :=
  (splitByChar p s.data).map String.mk

/-! ## Chat intake state machine (ChatPortfolio.jsx) -/

/-- The fixed question list of ChatPortfolio.jsx, lines 16 to 23. -/
def questions : List String :=
  [ "What is your full name?",
    "What is your most recent job title?",
    "List your top skills.",
    "Describe your work experience.",
    "List your projects.",
    "List your education qualifications" ]

/-- One parsed work-experience entry, with the four positional fields the
parser in handleSend assigns. -/
structure WorkExpEntry where
  company : String
  designation : String
  duration : String
  description : String
  deriving Repr, DecidableEq

/-- One parsed project entry. -/
structure ProjectEntry where
  name : String
  description : String
  deriving Repr, DecidableEq

/-- One parsed education entry. -/
structure EducationEntry where
  degree : String
  institution : String
  board : String
  description : String
  deriving Repr, DecidableEq

/-- The structured record handleSend builds on completion and hands to the
onChatComplete callback. -/
structure StructuredData where
  name : String
  aboutMe : String
  workExperience : List WorkExpEntry
  skills : List String
  projects : List ProjectEntry
  education : List EducationEntry
  deriving Repr, DecidableEq

/-- item.split(pipe).map(p => p.trim()): split one entry into positional
fields and trim each. -/
def splitFields (item : String) : List String :=
  (jsSplitOnChar '|' item).map jsTrim

/-- Work-experience parsing of handleSend: split the answer on semicolons
into entries, each entry on pipes into up to four trimmed positional
fields, missing fields defaulting to the empty string. -/
def parseWorkExperience (s : String) : List WorkExpEntry :=
  (jsSplitOnChar ';' s).map fun item =>
    let parts := splitFields item
    { company := parts.getD 0 "", designation := parts.getD 1 "",
      duration := parts.getD 2 "", description := parts.getD 3 "" }

/-- Skills parsing of handleSend: split on comma or newline, trim, drop
empty tokens. -/
def parseSkills (s : String) : List String :=
  ((jsSplitAny (fun c => c == ',' || c == '\n') s).map jsTrim).filter
    fun t => !t.isEmpty

/-- Projects parsing of handleSend: split on semicolons then pipes into a
name and a description. -/
def parseProjects (s : String) : List ProjectEntry :=
  (jsSplitOnChar ';' s).map fun item =>
    let parts := splitFields item
    { name := parts.getD 0 "", description := parts.getD 1 "" }

/-- Education parsing of handleSend: split on semicolons then pipes into up
to four trimmed positional fields. -/
def parseEducation (s : String) : List EducationEntry :=
  (jsSplitOnChar ';' s).map fun item =>
    let parts := splitFields item
    { degree := parts.getD 0 "", institution := parts.getD 1 "",
      board := parts.getD 2 "", description := parts.getD 3 "" }

/-- The completion parse of handleSend (ChatPortfolio.jsx lines 54 to 106):
answers[0] fills both Name and About Me; answers[1] to answers[4] fill the
four collection fields, each guarded by JS truthiness of the answer; any
later answer is not read. An absent index is modelled by defaulting to the
empty string, which JS truthiness treats like undefined. -/
def structuredDataOfAnswers (answers : List String) : StructuredData :=
  let a0 := answers.getD 0 ""
  let a1 := answers.getD 1 ""
  let a2 := answers.getD 2 ""
  let a3 := answers.getD 3 ""
  let a4 := answers.getD 4 ""
  { name := a0
    aboutMe := a0
    workExperience := if a1.isEmpty then [] else parseWorkExperience a1
    skills := if a2.isEmpty then [] else parseSkills a2
    projects := if a3.isEmpty then [] else parseProjects a3
    education := if a4.isEmpty then [] else parseEducation a4 }

/-- A chat transcript message; the sender is the literal string the source
stores ("ai" or "user"). -/
structure ChatMsg where
  sender : String
  text : String
  deriving Repr, DecidableEq

/-- State of the ChatPortfolio component: the transcript, the index of the
current question, and the records handed to onChatComplete so far (the
source invokes the callback at the point our model appends to emitted). -/
structure ChatState where
  messages : List ChatMsg
  currentQuestion : Nat
  emitted : List StructuredData
  deriving Repr, DecidableEq

/-- Initial component state: one assistant greeting, question index 0,
nothing emitted. -/
def chatInit : ChatState :=
  { messages :=
      [⟨"ai", "Hi! I can help you build your portfolio. What is your full name?"⟩]
    currentQuestion := 0
    emitted := [] }

/-- The answers accumulated so far: texts of the user messages, in order
(the filter and map of handleSend lines 40 to 42). -/
def userAnswers (msgs : List ChatMsg) : List String :=
  (msgs.filter fun m => m.sender == "user").map ChatMsg.text

/-- One send of the chat flow (handleSend, ChatPortfolio.jsx lines 31 to
128). A blank input returns immediately. Otherwise the input is appended
to the transcript and to the answer list; on the last question the parsed
record is emitted and the question index stays put, else the index advances
and the next fixed question is appended as an assistant message. -/
def handleSend (st : ChatState) (input : String) : ChatState :=
  if (jsTrim input).isEmpty then st
  else
    let msgs1 := st.messages ++ [⟨"user", input⟩]
    let answers := userAnswers st.messages ++ [input]
    if st.currentQuestion == questions.length - 1 then
      { messages := msgs1 ++
          [⟨"ai", "Thanks for your inputs. Saving your profile information."⟩]
        currentQuestion := st.currentQuestion
        emitted := st.emitted ++ [structuredDataOfAnswers answers] }
    else
      { messages := msgs1 ++ [⟨"ai", questions.getD (st.currentQuestion + 1) ""⟩]
        currentQuestion := st.currentQuestion + 1
        emitted := st.emitted }

/-- Submitting a sequence of inputs, one handleSend per input. -/
def runChat (st : ChatState) (inputs : List String) : ChatState :=
  inputs.foldl handleSend st

/-- Number of downstream (collection) fields of a structured record that
are populated, out of the four such fields the record has. -/
def downstreamPopulated (d : StructuredData) : Nat :=
  (if d.workExperience.isEmpty then 0 else 1) +
  (if d.skills.isEmpty then 0 else 1) +
  (if d.projects.isEmpty then 0 else 1) +
  (if d.education.isEmpty then 0 else 1)

/-! ## JSON values and the localStorage draft store -/

/-- A JSON value: the universe of JSON-serializable draft values the
coordinator persists. -/
inductive Json where
  | null : Json
  | bool (b : Bool) : Json
  | num (n : Int) : Json
  | str (s : String) : Json
  | arr (elems : List Json) : Json
  | obj (fields : List (String × Json)) : Json

/-- Lookup of an object field, as JS property access on a parsed object;
access on a non-object or a missing key gives undefined, modelled as none. -/
def Json.lookup (j : Json) (k : String) : Option Json :=
  match j with
  | .obj fields => (fields.find? fun f => f.1 == k).map Prod.snd
  | _ => none

/-- JS truthiness of a JSON value (null, false, 0 and the empty string are
falsy). -/
def Json.truthy : Json → Bool
  | .null => false
  | .bool b => b
  | .num n => n != 0
  | .str s => !s.isEmpty
  | .arr _ => true
  | .obj _ => true

/-- A value held in one localStorage slot. JSON.stringify and JSON.parse
are platform builtins, not code of this repository; they are modelled by
classifying each stored string. The constructor ser v stands for the text
JSON.stringify produces for the value v, which is always a nonempty
well-formed JSON document, so JSON.parse recovers v from it. The
constructor raw s stands for a string s that is not the serialization of
any JSON value: the plain id and timestamp strings the coordinator stores
directly with setItem, or a corrupted entry; JSON.parse raises a
SyntaxError on such a string. -/
inductive StoredCell where
  | ser (v : Json)
  | raw (s : String)

/-- The message of the exception JSON.parse raises on a malformed string. -/
def jsonSyntaxError : String := "SyntaxError: unexpected token in JSON"

/-- JS truthiness of the string held in a slot: serializer output is never
the empty string, so a serialized cell is always truthy; a raw string is
truthy iff nonempty. -/
def StoredCell.truthy : StoredCell → Bool
  | .ser _ => true
  | .raw s => !s.isEmpty

/-- Embedding of JSON.parse applied to a stored string: parsing the
serialization of v yields v; parsing a non-serialization string raises. -/
def StoredCell.parse : StoredCell → Except String Json
  | .ser v => .ok v
  | .raw _ => .error jsonSyntaxError

/-- The browser localStorage: a map from keys to stored strings. -/
def Store := String → Option StoredCell

/-- localStorage.getItem. -/
def Store.getItem (st : Store) (k : String) : Option StoredCell := st k

/-- localStorage.setItem. -/
def Store.setItem (st : Store) (k : String) (c : StoredCell) : Store :=
  fun k2 => if k2 = k then some c else st k2

/-- localStorage.removeItem. -/
def Store.removeItem (st : Store) (k : String) : Store :=
  fun k2 => if k2 = k then none else st k2

/-- An empty localStorage. -/
def Store.empty : Store := fun _ => none

/-- The load pattern of the Profile state initializers (PortfolioViewer.js
lines 106 to 123): read the slot; a missing or falsy (empty) stored string
yields null; otherwise JSON.parse runs with no surrounding try/catch, so a
parse failure escapes as an exception, modelled as Except.error. -/
def loadDraft (st : Store) (k : String) : Except String (Option Json) :=
  match st.getItem k with
  | none => .ok none
  | some c => if c.truthy then c.parse.map some else .ok none

/-- The save pattern of the coordinator: setItem of JSON.stringify of the
value. -/
def saveDraft (st : Store) (k : String) (v : Json) : Store :=
  st.setItem k (.ser v)

/-- The clear pattern (handleClearJobDescription and clearProfileData):
removeItem of the key. -/
def clearDraft (st : Store) (k : String) : Store := st.removeItem k

/-- localStorage keys of the Profile flow (STORAGE_KEYS, PortfolioViewer.js
lines 80 to 86). -/
def KEY_RESUME_DATA : String := "profile_resume_data"

/-- Key of the chat-derived profile draft. -/
def KEY_CHAT_DATA : String := "profile_chat_data"

/-- Key of the job-description draft. -/
def KEY_JOB_DESCRIPTION : String := "profile_job_description"

/-- Key of the saved job-description id. -/
def KEY_JOB_DESCRIPTION_ID : String := "profile_job_description_id"

/-- Key of the last-updated timestamp. -/
def KEY_LAST_UPDATED : String := "profile_last_updated"

/-! ## Workflow coordinator (the Profile component of PortfolioViewer.js) -/

/-- The resume handle kept in component state: built either by
handleResumeUploaded or by the background sync of fetchLatestData. -/
structure ResumeData where
  resumeId : String
  portfolioId : Option String
  status : String
  updatedAt : String

/-- The chat handle kept in component state after handleChatComplete: the
structured record it received, spread together with the id the backend
returned and the update timestamp. -/
structure ChatData where
  record : Json
  resumeId : String
  updatedAt : String

/-- The job-description draft: a title and a content text. -/
structure JobDesc where
  title : String
  content : String

/-- Serialization of a resume handle as written to localStorage. An absent
portfolioId is serialized as null. -/
def encodeResumeData (r : ResumeData) : Json :=
  .obj [("resumeId", .str r.resumeId),
        ("portfolioId", match r.portfolioId with | some p => .str p | none => .null),
        ("status", .str r.status),
        ("updatedAt", .str r.updatedAt)]

/-- Serialization of a chat handle as written to localStorage: the spread
of the received record extended with the returned resume id and the update
timestamp. -/
def encodeChatData (c : ChatData) : Json :=
  .obj ((match c.record with | .obj fields => fields | _ => []) ++
        [("resumeId", .str c.resumeId), ("updatedAt", .str c.updatedAt)])

/-- Serialization of the job-description draft. -/
def encodeJobDesc (j : JobDesc) : Json :=
  .obj [("title", .str j.title), ("content", .str j.content)]

/-- The state of the Profile coordinator: the userId prop together with the
pieces of component state the handlers read and write, and the backing
localStorage. The per-action in-flight flags are set and then reset in the
finally block of handleAction, so the post-state of every handler carries
the flags of its pre-state; they are omitted here. -/
structure CoordState where
  userId : String
  resumeData : Option ResumeData
  chatData : Option ChatData
  jobDescription : JobDesc
  jobDescriptionId : Option String
  lastUpdated : Option String
  storage : Store

/-- The completeness predicate isProfileComplete (PortfolioViewer.js line
148): a truthy resume or chat handle, and a truthy job-description id. -/
def isProfileComplete (st : CoordState) : Bool :=
  (st.resumeData.isSome || st.chatData.isSome) && jsTruthyOptStr st.jobDescriptionId

/-- At most one of the two profile sources is present. -/
def profileSourcesExclusive (st : CoordState) : Bool :=
  !(st.resumeData.isSome && st.chatData.isSome)

/-- An axios error: an optional response carrying an optional structured
payload with an optional human-readable detail, and an optional transport
error code. A timeout carries code ECONNABORTED and no response; an error
thrown locally in the try block also has no response. -/
structure AxiosErrData where
  detail : Option String

/-- The response part of an axios error. -/
structure AxiosErrResponse where
  data : Option AxiosErrData

/-- An axios (or locally thrown) error as seen by a catch block. -/
structure AxiosErr where
  response : Option AxiosErrResponse
  code : Option String

/-- The catch-block message selector: the optional chain
error.response?.data?.detail, falling back to the given message when the
chain is undefined or the detail is falsy. -/
def errDetailOr (e : AxiosErr) (fallback : String) : String :=
  match e.response with
  | none => fallback
  | some r =>
    match r.data with
    | none => fallback
    | some d =>
      match d.detail with
      | none => fallback
      | some s => if s.isEmpty then fallback else s

/-- An observable effect of a handler, in program order: an outbound GET or
POST, a router navigation, a window event dispatch, or a snackbar
notification. -/
inductive Effect where
  | getReq (endpoint : String)
  | post (endpoint : String) (body : Json)
  | navigate (path : String)
  | publish (eventName : String) (payload : Option String)
  | notify (severity : String) (message : String)

/-- The POST endpoints of a trace, with their bodies, in order. -/
def callsOf (tr : List Effect) : List String :=
  tr.filterMap fun e => match e with | .post ep _ => some ep | _ => none

/-- Whether a trace dispatches a window event strictly before its first
navigation (true also when it dispatches and never navigates). -/
def publishBeforeNavigate (tr : List Effect) : Bool :=
  match tr.findIdx? (fun e => match e with | .publish _ _ => true | _ => false),
        tr.findIdx? (fun e => match e with | .navigate _ => true | _ => false) with
  | some i, some j => i < j
  | some _, none => true
  | _, _ => false

/-- Whether a trace contains an error notification. -/
def hasErrorNotify (tr : List Effect) : Bool :=
  tr.any fun e => match e with | .notify sev _ => sev == "error" | _ => false

/-- The payload handleResumeUploaded receives from the upload flow. -/
structure UploadResult where
  resumeId : String
  portfolioId : Option String
  status : String

/-- handleResumeUploaded (PortfolioViewer.js lines 231 to 267): store the
uploaded handle as the active source and persist it, refresh the
last-updated timestamp, clear the chat handle if one exists (resume becomes
the source of truth), and show a success notification. The timestamp
argument stands for new Date().toISOString(). -/
def handleResumeUploaded (st : CoordState) (d : UploadResult) (now : String) :
    CoordState × List Effect :=
  let updated : ResumeData :=
    { resumeId := d.resumeId, portfolioId := d.portfolioId,
      status := d.status, updatedAt := now }
  let s1 := (st.storage.setItem KEY_RESUME_DATA (.ser (encodeResumeData updated))).setItem
      KEY_LAST_UPDATED (.raw now)
  let s2 := if st.chatData.isSome then s1.removeItem KEY_CHAT_DATA else s1
  ({ st with resumeData := some updated
             chatData := if st.chatData.isSome then none else st.chatData
             lastUpdated := some now
             storage := s2 },
   [.notify "success" "Resume uploaded and saved successfully!"])

/-- The body posted by handleChatComplete: user_id, the content field of
the received record, and its title field defaulting to Chat Profile. -/
def chatPostBody (userId : String) (d : Json) : Json :=
  .obj [("user_id", .str userId),
        ("content", (d.lookup "content").getD .null),
        ("title", if ((d.lookup "title").getD .null).truthy
                  then (d.lookup "title").getD .null
                  else .str "Chat Profile")]

/-- handleChatComplete (PortfolioViewer.js lines 270 to 311): POST the
structured record to the chat-resume endpoint; on success store the
returned handle as the active source (clearing the resume handle), persist
it, refresh the timestamp and notify success; on failure notify an error
and leave all state untouched. -/
def handleChatComplete (st : CoordState) (d : Json)
    (resp : Except AxiosErr String) (now : String) : CoordState × List Effect :=
  let postE := Effect.post "/api/resumes/chat" (chatPostBody st.userId d)
  match resp with
  | .error _ =>
    (st, [postE,
          .notify "error" "Error saving profile information. Please try again."])
  | .ok respId =>
    let c : ChatData := { record := d, resumeId := respId, updatedAt := now }
    let s1 := (st.storage.setItem KEY_CHAT_DATA (.ser (encodeChatData c))).setItem
        KEY_LAST_UPDATED (.raw now)
    let s2 := if st.resumeData.isSome then s1.removeItem KEY_RESUME_DATA else s1
    ({ st with chatData := some c
               resumeData := if st.resumeData.isSome then none else st.resumeData
               lastUpdated := some now
               storage := s2 },
     [postE, .notify "success" "Profile information saved successfully!"])

/-- The latest-resume record returned by the background sync. -/
structure LatestResume where
  id : String
  updated_at : String

/-- The latest job description returned by the background sync. -/
structure LatestJd where
  id : String
  title : String
  content : String

/-- fetchLatestData (PortfolioViewer.js lines 151 to 193), the background
sync run on mount, on its success path: when the latest-resume response has
truthy data, overwrite the resume handle (status completed) and persist it
— the chat handle is not cleared here; when the latest job-description
response has truthy data, overwrite the draft and the saved id and persist
both; finally refresh the last-updated timestamp. A failed request is
caught with only console logging. -/
def fetchLatestData (st : CoordState) (resumeResp : Option LatestResume)
    (jdResp : Option LatestJd) (now : String) : CoordState × List Effect :=
  let st1 :=
    match resumeResp with
    | none => st
    | some r =>
      let rd : ResumeData :=
        { resumeId := r.id, portfolioId := none,
          status := "completed", updatedAt := r.updated_at }
      { st with resumeData := some rd
                storage := st.storage.setItem KEY_RESUME_DATA
                  (.ser (encodeResumeData rd)) }
  let st2 :=
    match jdResp with
    | none => st1
    | some j =>
      { st1 with jobDescription := { title := j.title, content := j.content }
                 jobDescriptionId := some j.id
                 storage := (st1.storage.setItem KEY_JOB_DESCRIPTION
                     (.ser (encodeJobDesc { title := j.title, content := j.content }))).setItem
                   KEY_JOB_DESCRIPTION_ID (.raw j.id) }
  ({ st2 with lastUpdated := some now
              storage := st2.storage.setItem KEY_LAST_UPDATED (.raw now) },
   [.getReq ("/api/resumes/" ++ st.userId ++ "/latest"),
    .getReq ("/api/job-descriptions/" ++ st.userId ++ "/latest")])

/-- The payload of a job-description save response: an optional body with
an optional id. -/
structure JdSaveData where
  id : Option String

/-- A job-description save response as seen through axios. -/
structure JdSaveResp where
  data : Option JdSaveData

/-- The body posted by handleSaveJobDescription. -/
def jdPostBody (st : CoordState) : Json :=
  .obj [("user_id", .str st.userId),
        ("title", .str st.jobDescription.title),
        ("content", .str st.jobDescription.content)]

/-- The generic failure message of the job-description save catch block. -/
def jdSaveGenericError : String := "Error saving job description. Please try again."

/-- handleSaveJobDescription (PortfolioViewer.js lines 324 to 364): POST the
draft; when the response body or its id is falsy, throw — the local catch
then shows the generic message (a locally thrown error has no response, so
the detail chain is undefined) and nothing was mutated; otherwise store the
id and the draft, refresh the timestamp, and notify success. A transport
error shows the backend detail when present, else the generic message. -/
def handleSaveJobDescription (st : CoordState) (resp : Except AxiosErr JdSaveResp)
    (now : String) : CoordState × List Effect :=
  let postE := Effect.post "/api/job-descriptions" (jdPostBody st)
  match resp with
  | .error e => (st, [postE, .notify "error" (errDetailOr e jdSaveGenericError)])
  | .ok r =>
    match r.data with
    | none => (st, [postE, .notify "error" jdSaveGenericError])
    | some d =>
      match d.id with
      | none => (st, [postE, .notify "error" jdSaveGenericError])
      | some i =>
        if i.isEmpty then (st, [postE, .notify "error" jdSaveGenericError])
        else
          let s1 := ((st.storage.setItem KEY_JOB_DESCRIPTION_ID (.raw i)).setItem
              KEY_JOB_DESCRIPTION (.ser (encodeJobDesc st.jobDescription))).setItem
            KEY_LAST_UPDATED (.raw now)
          ({ st with jobDescriptionId := some i
                     lastUpdated := some now
                     storage := s1 },
           [postE, .notify "success" "Job description saved successfully!"])

/-- Whether a save response carries a truthy id (the negation of the check
that makes handleSaveJobDescription throw). -/
def jdRespHasId (r : JdSaveResp) : Bool :=
  match r.data with
  | none => false
  | some d => jsTruthyOptStr d.id

/-- handleClearJobDescription (PortfolioViewer.js lines 367 to 377): reset
the draft and the id, remove both localStorage entries, notify success. -/
def handleClearJobDescription (st : CoordState) : CoordState × List Effect :=
  ({ st with jobDescription := { title := "", content := "" }
             jobDescriptionId := none
             storage := (st.storage.removeItem KEY_JOB_DESCRIPTION).removeItem
               KEY_JOB_DESCRIPTION_ID },
   [.notify "success" "Job description cleared."])

/-- The resume id handleAction resolves: resumeData?.resumeId falling back,
when that chain is falsy, to chatData?.resumeId. -/
def resolvedResumeId (st : CoordState) : Option String :=
  match st.resumeData with
  | some r => if r.resumeId.isEmpty then st.chatData.map ChatData.resumeId
              else some r.resumeId
  | none => st.chatData.map ChatData.resumeId

/-- The shared payload of the generation actions: user id, saved
job-description id and resolved resume id. -/
def baseRequestBody (st : CoordState) (resumeId : String) : Json :=
  .obj [("user_id", .str st.userId),
        ("job_description_id",
         match st.jobDescriptionId with | some s => .str s | none => .null),
        ("resume_id", .str resumeId)]

/-- The payload of the portfolio action: it ignores the resolved id, takes
resume_id from the resume handle only, and attaches the chat handle. -/
def portfolioRequestBody (st : CoordState) : Json :=
  .obj [("user_id", .str st.userId),
        ("title", .str "My Portfolio"),
        ("resume_id",
         match st.resumeData with | some r => .str r.resumeId | none => .null),
        ("job_description_id",
         match st.jobDescriptionId with | some s => .str s | none => .null),
        ("chat_data",
         match st.chatData with | some c => encodeChatData c | none => .null)]

/-- The body of the POST the interview case issues synchronously. -/
def startInterviewBody (st : CoordState) : Json :=
  .obj [("user_id", .str st.userId),
        ("job_description_id",
         match st.jobDescriptionId with | some s => .str s | none => .null)]

/-- The id field of a start-interview response body, as read for the
interview-started event detail. -/
def jsonIdOf (j : Json) : Option String :=
  match j.lookup "id" with
  | some (.str s) => some s
  | _ => none

/-- The shared dispatch at the end of handleAction (PortfolioViewer.js
lines 515 to 535): POST the endpoint, then on success notify the success
message and navigate when a redirect path is set; on failure the catch
shows the backend detail or the error message. pre holds the effects the
switch produced before falling through. -/
def sharedDispatch (st : CoordState) (endpoint : String) (body : Json)
    (successMessage errorMessage redirectPath : String)
    (net : String → Json → Except AxiosErr Json) (pre : List Effect) :
    CoordState × List Effect :=
  match net endpoint body with
  | .error e =>
    (st, pre ++ [.post endpoint body, .notify "error" (errDetailOr e errorMessage)])
  | .ok _ =>
    (st, pre ++ [.post endpoint body, .notify "success" successMessage] ++
         (if redirectPath.isEmpty then [] else [.navigate redirectPath]))

/-- handleAction (PortfolioViewer.js lines 415 to 546). When the
completeness predicate is false it returns before any network traffic with
only a warning notification; when no resume id resolves it returns with an
error notification. Otherwise it sets the in-flight flag of the action
(reset again in the finally block, so the final state equals the initial
one), builds the shared payload, and switches on the action. The interview
case synchronously POSTs the start endpoint; on success it navigates to
the interviewer screen, dispatches the interview-started event with the
new id, notifies, and then — the switch only breaks — falls through to the
shared dispatch with the endpoint still the empty string. Every other known
action configures the endpoint and messages and reaches the shared
dispatch; an unknown action throws, landing in the catch with the still
empty error message. The net argument models the backend answering each
POST. -/
def handleAction (st : CoordState) (action : String)
    (net : String → Json → Except AxiosErr Json) : CoordState × List Effect :=
  if !isProfileComplete st then
    (st, [.notify "warning" "Please complete your profile and job description first."])
  else if !jsTruthyOptStr (resolvedResumeId st) then
    (st, [.notify "error"
      "Resume information is required. Please upload a resume or complete the chat."])
  else
    let resumeId := (resolvedResumeId st).getD ""
    let requestData := baseRequestBody st resumeId
    match action with
    | "optimize" =>
      sharedDispatch st "/api/resumes/optimize" requestData
        "Resume optimization started." "Error starting resume optimization."
        "/resume-optimizer" net []
    | "portfolio" =>
      sharedDispatch st "/api/portfolios/generate" (portfolioRequestBody st)
        "Portfolio generation started." "Error starting portfolio generation."
        "/portfolio-generator" net []
    | "cover-letter" =>
      sharedDispatch st "/api/cover-letters/generate" requestData
        "Cover letter generation started." "Error starting cover letter generation."
        "/cover-letter-writer" net []
    | "career-guide" =>
      sharedDispatch st "/api/career-guides/generate" requestData
        "Career guide generation started." "Error starting career guide generation."
        "/career-guide" net []
    | "interview" =>
      match net "/api/interviews/start" (startInterviewBody st) with
      | .error e =>
        (st, [.post "/api/interviews/start" (startInterviewBody st),
              .notify "error" (errDetailOr e "")])
      | .ok j =>
        sharedDispatch st "" requestData "" "" "" net
          [.post "/api/interviews/start" (startInterviewBody st),
           .navigate "/mock-interviewer",
           .publish "interview-started" (jsonIdOf j),
           .notify "success" "Starting new interview..."]
    | _ => (st, [.notify "error" ""])

/-! ## Axios configuration (src/frontend/src/utils/axios.js) -/

/-- The timeout configured on the axios instance created in
src/frontend/src/utils/axios.js, line 21, in milliseconds. -/
def utilsAxiosTimeoutMs : Option Nat := some 30000

/-- The timeout carried by the default axios export at runtime:
MockInterviewer.jsx line 40 executes the assignment of 30000 to
axios.defaults.timeout at module load, and the application imports that
component statically, so every call through the default export — the
calls of the Profile coordinator in PortfolioViewer.js among them — runs
under a 30-second timeout. -/
def axiosDefaultsTimeoutMs : Option Nat := some 30000

/-- The message selection of the job-description fetch catch inside
startNewInterview (MockInterviewer.jsx lines 154 to 158): the timeout
transport code is mapped to a timeout-specific message; any other error —
a locally thrown one without a code included — to the generic fetch
failure message. -/
def mockInterviewerJdFetchMessage (e : AxiosErr) : String :=
  if e.code == some "ECONNABORTED" then
    "Connection timed out while fetching job description. Please try again."
  else
    "Failed to fetch job description. Please ensure you have added a job description."

/-- The axios error a 30-second timeout produces: transport code
ECONNABORTED and no response object. -/
def timeoutErr : AxiosErr := { response := none, code := some "ECONNABORTED" }

/-- A generic transport failure with no structured payload. -/
def genericNetErr : AxiosErr := { response := none, code := none }

/-! ## Portfolio export (handleExport of the PortfolioList component) -/

/-- JS String.prototype.includes for a fixed pattern, on character lists:
true iff the pattern occurs as a contiguous segment. -/
def occursIn (pat : List Char) : List Char → Bool
  | [] => pat.isPrefixOf ([] : List Char)
  | c :: rest => pat.isPrefixOf (c :: rest) || occursIn pat rest

/-- GetSubstitution of String.prototype.replace for a plain string search
value (no capture groups): in the replacement text, a dollar followed by a
dollar yields one dollar, a dollar followed by an ampersand yields the
matched text, a dollar followed by a backquote yields the portion of the
string before the match, a dollar followed by a single quote yields the
portion after it, and any other dollar sequence — digit references
included, as there are no captures — is left literal. The arguments
matched, pre and post are the matched text and the portions before and
after the match. -/
def getSubstitution (matched pre post : List Char) : List Char → List Char
  | [] => []
  | [c] => [c]
  | c :: d :: rest2 =>
    if c = '$' then
      if d = '$' then '$' :: getSubstitution matched pre post rest2
      else if d = '&' then matched ++ getSubstitution matched pre post rest2
      else if d = '\x60' then pre ++ getSubstitution matched pre post rest2
      else if d = '\x27' then post ++ getSubstitution matched pre post rest2
      else c :: getSubstitution matched pre post (d :: rest2)
    else c :: getSubstitution matched pre post (d :: rest2)

/-- The split at the first occurrence of pat underlying
String.prototype.replace with a string pattern: the portion before the
first occurrence and the portion after it, or none when pat does not
occur. -/
def splitAtFirst (pat : List Char) : List Char → Option (List Char × List Char)
  | [] => none
  | c :: rest =>
    if pat.isPrefixOf (c :: rest) then some ([], (c :: rest).drop pat.length)
    else
      match splitAtFirst pat rest with
      | none => none
      | some (A, B) => some (c :: A, B)

/-- JS String.prototype.replace with a plain (nonempty) string pattern: it
rewrites only the first occurrence, passing the replacement text through
GetSubstitution with the matched text and the surrounding portions, and
is the identity when the pattern does not occur. -/
def replaceFirst (s pat repl : List Char) : List Char :=
  match splitAtFirst pat s with
  | none => s
  | some (A, B) => A ++ getSubstitution pat A B repl ++ B

/-- The closing head tag the export handler searches for. -/
def headCloseTag : List Char := "</head>".data

/-- The stylesheet block the export handler builds around the css payload,
newlines included. -/
def styleBlockFor (css : List Char) : List Char :=
  "<style>\n".data ++ css ++ "\n</style>\n".data

/-- The CSS-inlining step of handleExport (PortfolioList, lines 447 to 473
of the concatenated source): with truthy css, insert the stylesheet block
before the closing head tag when the html includes one — JS replace
rewrites only the first — and otherwise prepend the block; falsy css
leaves the html untouched. -/
def injectCss (html css : List Char) : List Char :=
  if css.isEmpty then html
  else if occursIn headCloseTag html then
    replaceFirst html headCloseTag (styleBlockFor css ++ headCloseTag)
  else styleBlockFor css ++ html

/-! ## Concrete fixtures used by witnesses and counterexamples -/

/-- An empty coordinator state: fresh user, nothing stored. -/
def coordEmpty : CoordState :=
  { userId := "test-user-123", resumeData := none, chatData := none,
    jobDescription := { title := "", content := "" }, jobDescriptionId := none,
    lastUpdated := none, storage := Store.empty }

/-- A chat handle fixture. -/
def chatFixture : ChatData :=
  { record := .obj [], resumeId := "chat-resume-1", updatedAt := "2025-01-01T00:00:00Z" }

/-- A coordinator state holding only a chat handle, as left behind by a
completed chat intake, before any job-description save. -/
def coordChatOnly : CoordState :=
  { coordEmpty with chatData := some chatFixture }

/-- A complete coordinator state: a chat handle and a saved
job-description id, so the completeness predicate holds. -/
def coordComplete : CoordState :=
  { coordEmpty with chatData := some chatFixture, jobDescriptionId := some "jd-7" }

/-- A backend that answers every POST successfully, answering the
start-interview endpoint with a body carrying id iv-1. -/
def netAllOk : String → Json → Except AxiosErr Json :=
  fun endpoint _ =>
    if endpoint = "/api/interviews/start" then .ok (.obj [("id", .str "iv-1")])
    else .ok .null

/-- A backend on which every POST times out after the configured 30
seconds. -/
def netAllTimeout : String → Json → Except AxiosErr Json :=
  fun _ _ => .error timeoutErr

/-- A backend on which every POST fails with a generic transport error and
no structured payload. -/
def netAllFail : String → Json → Except AxiosErr Json :=
  fun _ _ => .error genericNetErr

/-- A backend that starts the interview successfully but fails the
fall-through POST to the empty endpoint. -/
def netStartOkThenFail : String → Json → Except AxiosErr Json :=
  fun endpoint _ =>
    if endpoint = "/api/interviews/start" then .ok (.obj [("id", .str "iv-1")])
    else .error genericNetErr

/-- A store holding one malformed entry under the resume draft key. -/
def storeMalformed : Store :=
  Store.setItem Store.empty KEY_RESUME_DATA (.raw "not a json document")

/-! ## Helper lemmas -/

/-- A string whose trim is nonempty is itself nonempty. -/
theorem isEmpty_false_of_jsTrim (s : String) (h : (jsTrim s).isEmpty = false) :
    s.isEmpty = false := by
  by_contra hne
  have hs : s.isEmpty = true := by simpa using hne
  have : s = "" := (String.isEmpty_iff s).mp hs
  subst this
  exact absurd h (by decide)

/-! ## Claim C2 (chat intake) -/

/--
Claim C2, counterexample to the claim as stated. On the six-answer
scenario of the design document, closed with a final sixth answer, the
single emitted record populates only four downstream fields — Work
Experience from answers[1], Skills from answers[2], Projects from
answers[3], Education from answers[4] — not N-1 = 5 of them; and the
record does not depend on answers[5] at all: a run with a different sixth
answer emits the identical record. So it is false that exactly N-1
downstream fields are populated from answers[1..N-1].
-/
theorem chat_intake_counterexample :
    (runChat chatInit ["Jane Doe", "Engineer | Acme | 2019-2022 | Built things",
        "Python, Go\nRust", "PortfolioSite | A site", "BSc | MIT | | ",
        "BTech | IIT | | "]).emitted =
      [{ name := "Jane Doe", aboutMe := "Jane Doe",
         workExperience := [⟨"Engineer", "Acme", "2019-2022", "Built things"⟩],
         skills := ["Python", "Go", "Rust"],
         projects := [⟨"PortfolioSite", "A site"⟩],
         education := [⟨"BSc", "MIT", "", ""⟩] }] ∧
    downstreamPopulated
      { name := "Jane Doe", aboutMe := "Jane Doe",
        workExperience := [⟨"Engineer", "Acme", "2019-2022", "Built things"⟩],
        skills := ["Python", "Go", "Rust"],
        projects := [⟨"PortfolioSite", "A site"⟩],
        education := [⟨"BSc", "MIT", "", ""⟩] } = 4 ∧ (4 : Nat) ≠ 6 - 1 ∧
    (runChat chatInit ["Jane Doe", "Engineer | Acme | 2019-2022 | Built things",
        "Python, Go\nRust", "PortfolioSite | A site", "BSc | MIT | | ",
        "BTech | IIT | | "]).emitted =
      (runChat chatInit ["Jane Doe", "Engineer | Acme | 2019-2022 | Built things",
          "Python, Go\nRust", "PortfolioSite | A site", "BSc | MIT | | ",
          "A completely different final answer"]).emitted := by
  refine ⟨by decide, by decide, by decide, by decide⟩

/--
Claim C2, amended: submitting the six fixed-question answers in order,
each nonempty after trimming, completes the intake exactly once, invoking
the completion callback with one structured record in which answers[0]
populates both Name and About Me, and exactly N-2 = 4 downstream fields
are populated from answers[1..N-2]: Work Experience parsed from
answers[1], Skills from answers[2], Projects from answers[3] and Education
from answers[4], splitting entries on the semicolon and fields on the pipe
with missing fields becoming empty strings; answers[N-1] only triggers
completion and is not read. In particular, for answers[1] equal to
"Engineer | Acme | 2019-2022 | Built things" the Work Experience of the
record is the single entry with Company "Engineer", Designation "Acme",
Duration "2019-2022" and Description "Built things" — the answer to the
job-title question lands in Work Experience.
-/
theorem chat_intake_complete_run (a0 a1 a2 a3 a4 a5 : String)
    (h0 : (jsTrim a0).isEmpty = false) (h1 : (jsTrim a1).isEmpty = false)
    (h2 : (jsTrim a2).isEmpty = false) (h3 : (jsTrim a3).isEmpty = false)
    (h4 : (jsTrim a4).isEmpty = false) (h5 : (jsTrim a5).isEmpty = false) :
    (runChat chatInit [a0, a1, a2, a3, a4, a5]).emitted =
      [{ name := a0, aboutMe := a0,
         workExperience := parseWorkExperience a1,
         skills := parseSkills a2,
         projects := parseProjects a3,
         education := parseEducation a4 }] ∧
    (runChat chatInit [a0, a1, a2, a3, a4, a5]).currentQuestion = 5 := by
  have e1 := isEmpty_false_of_jsTrim a1 h1
  have e2 := isEmpty_false_of_jsTrim a2 h2
  have e3 := isEmpty_false_of_jsTrim a3 h3
  have e4 := isEmpty_false_of_jsTrim a4 h4
  constructor <;>
    simp [runChat, chatInit, handleSend, userAnswers, questions,
      structuredDataOfAnswers, h0, h1, h2, h3, h4, h5, e1, e2, e3, e4]

/--
Claim C2, witness: the amended theorem applied to the design-document
scenario, together with the concrete Work Experience value of that run.
-/
theorem chat_intake_complete_run_witness :
    ((runChat chatInit ["Jane Doe", "Engineer | Acme | 2019-2022 | Built things",
        "Python, Go\nRust", "PortfolioSite | A site", "BSc | MIT | | ",
        "BTech | IIT | | "]).emitted =
      [{ name := "Jane Doe", aboutMe := "Jane Doe",
         workExperience :=
           parseWorkExperience "Engineer | Acme | 2019-2022 | Built things",
         skills := parseSkills "Python, Go\nRust",
         projects := parseProjects "PortfolioSite | A site",
         education := parseEducation "BSc | MIT | | " }] ∧
     (runChat chatInit ["Jane Doe", "Engineer | Acme | 2019-2022 | Built things",
        "Python, Go\nRust", "PortfolioSite | A site", "BSc | MIT | | ",
        "BTech | IIT | | "]).currentQuestion = 5) ∧
    parseWorkExperience "Engineer | Acme | 2019-2022 | Built things" =
      [⟨"Engineer", "Acme", "2019-2022", "Built things"⟩] :=
  ⟨chat_intake_complete_run _ _ _ _ _ _ (by decide) (by decide) (by decide)
      (by decide) (by decide) (by decide),
   by decide⟩

/-! ## Claims C5 and C6 (draft store) -/

/--
Claim C5, counterexample: a malformed stored entry is not treated like an
absent one — loading the resume-draft key from a store holding a
non-JSON string raises the JSON.parse SyntaxError instead of returning
nothing, because the state initializers call JSON.parse with no
surrounding try/catch.
-/
theorem draft_load_malformed_counterexample :
    loadDraft storeMalformed KEY_RESUME_DATA = .error jsonSyntaxError ∧
    (Except.error jsonSyntaxError : Except String (Option Json)) ≠ .ok none :=
  ⟨rfl, by simp⟩

/--
Claim C5, amended: for every key, load returns the deserialized stored
value when the entry is present and well-formed, and returns nothing when
the entry is absent or the stored string is empty; but a nonempty
malformed entry is fatal — JSON.parse raises and no handler catches it —
rather than being treated as absent.
-/
theorem draft_load_amended (st : Store) (k : String) :
    (st.getItem k = none → loadDraft st k = .ok none) ∧
    (∀ v, st.getItem k = some (.ser v) → loadDraft st k = .ok (some v)) ∧
    (∀ s, st.getItem k = some (.raw s) → s.isEmpty = false →
      loadDraft st k = .error jsonSyntaxError) ∧
    (st.getItem k = some (.raw "") → loadDraft st k = .ok none) := by
  have hE : "".isEmpty = true := by decide
  refine ⟨fun h => ?_, fun v h => ?_, fun s h hs => ?_, fun h => ?_⟩ <;>
    simp [loadDraft, StoredCell.truthy, StoredCell.parse, Except.map, hE, h, *]

/--
Claim C5, witness: the amended theorem applied to the store holding one
nonempty malformed entry under the resume-draft key.
-/
theorem draft_load_amended_witness :
    loadDraft storeMalformed KEY_RESUME_DATA = .error jsonSyntaxError :=
  (draft_load_amended storeMalformed KEY_RESUME_DATA).2.2.1
    "not a json document" rfl rfl

/--
Claim C6: for every store, key and JSON-serializable draft value, saving
and then loading the key returns exactly that value, and clearing and
then loading returns absent.
-/
theorem draft_store_roundtrip (st : Store) (k : String) (v : Json) :
    loadDraft (saveDraft st k v) k = .ok (some v) ∧
    loadDraft (clearDraft st k) k = .ok none := by
  constructor <;>
    simp [loadDraft, saveDraft, clearDraft, Store.getItem, Store.setItem,
      Store.removeItem, StoredCell.truthy, StoredCell.parse, Except.map]

/-! ## Claim C1 (mutual exclusivity of the profile sources) -/

/--
Claim C1, counterexample: the background sync on mount violates the
mutual-exclusivity invariant. Starting from a state holding only a chat
handle (so the invariant holds), fetchLatestData with a truthy
latest-resume response sets the resume handle without clearing the chat
handle, leaving both present.
-/
theorem profile_exclusivity_counterexample :
    profileSourcesExclusive coordChatOnly = true ∧
    (fetchLatestData coordChatOnly (some ⟨"resume-9", "2025-01-02T00:00:00Z"⟩)
        none "2025-01-02T00:00:00Z").1.resumeData.isSome = true ∧
    (fetchLatestData coordChatOnly (some ⟨"resume-9", "2025-01-02T00:00:00Z"⟩)
        none "2025-01-02T00:00:00Z").1.chatData.isSome = true ∧
    profileSourcesExclusive
      (fetchLatestData coordChatOnly (some ⟨"resume-9", "2025-01-02T00:00:00Z"⟩)
        none "2025-01-02T00:00:00Z").1 = false :=
  ⟨rfl, rfl, rfl, rfl⟩

/--
Claim C1, amended: after resume-upload completion and after successful
chat completion at most one of the two handles is present — each of those
transitions clears the other handle — and a failed chat completion leaves
the state untouched; but the background sync on mount never clears the
chat handle, so it does not preserve the invariant when it sets the
resume handle while a chat handle is present.
-/
theorem profile_exclusivity_amended (st : CoordState) (d : UploadResult)
    (rec : Json) (respId : String) (e : AxiosErr) (rr : Option LatestResume)
    (jr : Option LatestJd) (now : String) :
    profileSourcesExclusive (handleResumeUploaded st d now).1 = true ∧
    profileSourcesExclusive (handleChatComplete st rec (.ok respId) now).1 = true ∧
    (handleChatComplete st rec (.error e) now).1 = st ∧
    (fetchLatestData st rr jr now).1.chatData = st.chatData := by
  refine ⟨?_, ?_, rfl, ?_⟩
  · cases h : st.chatData <;>
      simp [handleResumeUploaded, profileSourcesExclusive, h]
  · cases h : st.resumeData <;>
      simp [handleChatComplete, profileSourcesExclusive, h]
  · cases rr <;> cases jr <;> rfl

/-! ## Claim C3 (completeness gate on the generation actions) -/

/--
Claim C3: when the completeness predicate is false, triggering any
generation action — the five known ones included — issues no network
call and leaves the coordinator state unchanged; the only effect is the
warning notification asking to complete the profile first.
-/
theorem action_gate_incomplete_noop (st : CoordState) (action : String)
    (net : String → Json → Except AxiosErr Json)
    (h : isProfileComplete st = false) :
    handleAction st action net =
      (st, [.notify "warning"
        "Please complete your profile and job description first."]) ∧
    callsOf (handleAction st action net).2 = [] := by
  have hmain : handleAction st action net =
      (st, [.notify "warning"
        "Please complete your profile and job description first."]) := by
    simp [handleAction, h]
  exact ⟨hmain, by rw [hmain]; rfl⟩

/--
Claim C3, witness: the gate theorem applied to the empty coordinator
state and the optimize action against an always-successful backend.
-/
theorem action_gate_incomplete_noop_witness :
    handleAction coordEmpty "optimize" netAllOk =
      (coordEmpty, [.notify "warning"
        "Please complete your profile and job description first."]) ∧
    callsOf (handleAction coordEmpty "optimize" netAllOk).2 = [] :=
  action_gate_incomplete_noop coordEmpty "optimize" netAllOk rfl

/-! ## Claim C4 (job-description save with a missing id) -/

/--
Claim C4: when the save response carries no truthy id (body or id absent
or empty), the coordinator throws before any mutation: the catch shows
the generic error notification — not a success one — and the state,
stored id and draft included, is exactly the prior state, so the
completeness predicate is unchanged.
-/
theorem jd_save_missing_id (st : CoordState) (r : JdSaveResp) (now : String)
    (h : jdRespHasId r = false) :
    handleSaveJobDescription st (.ok r) now =
      (st, [.post "/api/job-descriptions" (jdPostBody st),
            .notify "error" jdSaveGenericError]) ∧
    isProfileComplete (handleSaveJobDescription st (.ok r) now).1 =
      isProfileComplete st := by
  have hmain : handleSaveJobDescription st (.ok r) now =
      (st, [.post "/api/job-descriptions" (jdPostBody st),
            .notify "error" jdSaveGenericError]) := by
    cases hr : r.data with
    | none => simp [handleSaveJobDescription, hr]
    | some d =>
      cases hd : d.id with
      | none => simp [handleSaveJobDescription, hr, hd]
      | some i =>
        have hi : i.isEmpty = true := by
          have := h
          simp only [jdRespHasId, hr, hd, jsTruthyOptStr] at this
          simpa using this
        simp [handleSaveJobDescription, hr, hd, hi]
  exact ⟨hmain, by rw [hmain]⟩

/--
Claim C4, witness: the theorem applied to a state holding a chat handle
and a response with an absent body.
-/
theorem jd_save_missing_id_witness :
    handleSaveJobDescription coordChatOnly (.ok ⟨none⟩) "2025-01-03T00:00:00Z" =
      (coordChatOnly,
       [.post "/api/job-descriptions" (jdPostBody coordChatOnly),
        .notify "error" jdSaveGenericError]) ∧
    isProfileComplete
      (handleSaveJobDescription coordChatOnly (.ok ⟨none⟩)
        "2025-01-03T00:00:00Z").1 = isProfileComplete coordChatOnly :=
  jd_save_missing_id coordChatOnly ⟨none⟩ "2025-01-03T00:00:00Z" rfl

/-! ## Claim C7 (timeouts) -/

/--
Claim C7, counterexample: for the coordinator of PortfolioViewer.js a
timed-out optimize action is indistinguishable from a generic transport
failure — the whole handler result is identical, a single error
notification carrying the generic failure text with no timeout-specific
phrase — because its catch selects error.response detail or the generic
message, and a timeout carries no response.
-/
theorem timeout_notification_counterexample :
    handleAction coordComplete "optimize" netAllTimeout =
      handleAction coordComplete "optimize" netAllFail ∧
    (handleAction coordComplete "optimize" netAllTimeout).2 =
      [.post "/api/resumes/optimize" (baseRequestBody coordComplete "chat-resume-1"),
       .notify "error" "Error starting resume optimization."] :=
  ⟨rfl, rfl⟩

/--
Claim C7, amended: outbound calls do carry a fixed 30-second timeout —
the utils/axios instance configures 30000 milliseconds, and
MockInterviewer sets the same value on the axios defaults at module load,
so the default export the coordinator uses carries it too — but a call
exceeding the timeout is not surfaced distinctly by every operation: the
coordinator maps every error without a response object, the
ECONNABORTED timeout included, to the same generic fallback message, and
only MockInterviewer maps the timeout code to a timeout-specific phrase
distinct from its generic failure message.
-/
theorem timeout_config_amended (code : Option String) (fallback : String) :
    utilsAxiosTimeoutMs = some 30000 ∧
    axiosDefaultsTimeoutMs = some 30000 ∧
    errDetailOr { response := none, code := code } fallback = fallback ∧
    errDetailOr timeoutErr fallback = fallback ∧
    mockInterviewerJdFetchMessage timeoutErr =
      "Connection timed out while fetching job description. Please try again." ∧
    mockInterviewerJdFetchMessage genericNetErr ≠
      mockInterviewerJdFetchMessage timeoutErr :=
  ⟨rfl, rfl, rfl, rfl, rfl, by decide⟩

/-! ## Claim C8 (interview action ordering) -/

/--
Claim C8, counterexample: on a complete profile with a successful
interview start, the trace navigates to the interviewer screen at
position 1 and dispatches the interview-started event only at position 2
— the publish step does not come before the navigation.
-/
theorem interview_publish_order_counterexample :
    (handleAction coordComplete "interview" netAllOk).2.take 4 =
      [.post "/api/interviews/start" (startInterviewBody coordComplete),
       .navigate "/mock-interviewer",
       .publish "interview-started" (some "iv-1"),
       .notify "success" "Starting new interview..."] ∧
    publishBeforeNavigate (handleAction coordComplete "interview" netAllOk).2 =
      false :=
  ⟨rfl, rfl⟩

/--
Claim C8, amended: the interview action synchronously starts the
interview session, then navigates to the interview view, and only then
notifies the rest of the application of the new session identifier (the
interview-started event carrying the id of the response) — the publish
step follows the navigation immediately, before any further dispatch.
-/
theorem interview_publish_order_amended (st : CoordState)
    (net : String → Json → Except AxiosErr Json) (j : Json)
    (hc : isProfileComplete st = true)
    (hr : jsTruthyOptStr (resolvedResumeId st) = true)
    (hs : net "/api/interviews/start" (startInterviewBody st) = .ok j) :
    (handleAction st "interview" net).2.take 4 =
      [.post "/api/interviews/start" (startInterviewBody st),
       .navigate "/mock-interviewer",
       .publish "interview-started" (jsonIdOf j),
       .notify "success" "Starting new interview..."] := by
  cases hnet : net "" (baseRequestBody st ((resolvedResumeId st).getD "")) <;>
    simp [handleAction, hc, hr, hs, sharedDispatch, hnet]

/--
Claim C8, witness: the amended ordering theorem applied to the complete
fixture state against an always-successful backend.
-/
theorem interview_publish_order_amended_witness :
    (handleAction coordComplete "interview" netAllOk).2.take 4 =
      [.post "/api/interviews/start" (startInterviewBody coordComplete),
       .navigate "/mock-interviewer",
       .publish "interview-started" (jsonIdOf (.obj [("id", .str "iv-1")])),
       .notify "success" "Starting new interview..."] :=
  interview_publish_order_amended coordComplete netAllOk
    (.obj [("id", .str "iv-1")]) rfl rfl rfl

/-! ## Claim C10 (interview fall-through double POST) -/

/--
Claim C10: with the completeness precondition satisfied and a resolvable
resume id, a successful interview start issues two POSTs, not one: after
the start call, the navigation and the publish step, control falls
through the switch to the shared dispatch, which POSTs the empty endpoint
with the shared body of user id, job-description id and resume id; an
error notification is shown exactly when that second call fails.
-/
theorem interview_fallthrough_double_post (st : CoordState)
    (net : String → Json → Except AxiosErr Json) (j : Json)
    (hc : isProfileComplete st = true)
    (hr : jsTruthyOptStr (resolvedResumeId st) = true)
    (hs : net "/api/interviews/start" (startInterviewBody st) = .ok j) :
    handleAction st "interview" net =
      (st,
       [.post "/api/interviews/start" (startInterviewBody st),
        .navigate "/mock-interviewer",
        .publish "interview-started" (jsonIdOf j),
        .notify "success" "Starting new interview...",
        .post "" (baseRequestBody st ((resolvedResumeId st).getD "")),
        match net "" (baseRequestBody st ((resolvedResumeId st).getD "")) with
        | .error e => .notify "error" (errDetailOr e "")
        | .ok _ => .notify "success" ""]) ∧
    callsOf (handleAction st "interview" net).2 =
      ["/api/interviews/start", ""] ∧
    hasErrorNotify (handleAction st "interview" net).2 =
      (match net "" (baseRequestBody st ((resolvedResumeId st).getD "")) with
       | .error _ => true
       | .ok _ => false) := by
  have hE : "".isEmpty = true := by decide
  cases hnet : net "" (baseRequestBody st ((resolvedResumeId st).getD "")) <;>
    refine ⟨?_, ?_, ?_⟩ <;>
      simp [handleAction, hc, hr, hs, sharedDispatch, hnet, callsOf,
        hasErrorNotify, hE]

/--
Claim C10, witness: the fall-through theorem applied to the complete
fixture state against a backend that starts the interview but fails the
empty-endpoint POST; the second call appears in the call list and an
error notification is shown.
-/
theorem interview_fallthrough_double_post_witness :
    callsOf (handleAction coordComplete "interview" netStartOkThenFail).2 =
      ["/api/interviews/start", ""] ∧
    hasErrorNotify (handleAction coordComplete "interview" netStartOkThenFail).2 =
      true := by
  have h := interview_fallthrough_double_post coordComplete netStartOkThenFail
    (.obj [("id", .str "iv-1")]) rfl rfl rfl
  exact ⟨h.2.1, by rw [h.2.2]; rfl⟩

/-! ## Claim C9 (portfolio export stylesheet injection) -/

/-- splitAtFirst finds a decomposition exactly at the first occurrence of
the (nonempty) pattern: the returned prefix is no longer than the prefix
of any decomposition of s around the pattern. -/
theorem splitAtFirst_spec (pat : List Char) (hp : pat ≠ []) :
    ∀ s : List Char, occursIn pat s = true →
      ∃ A B, splitAtFirst pat s = some (A, B) ∧ s = A ++ pat ++ B ∧
        (∀ A2 B2, s = A2 ++ pat ++ B2 → A.length ≤ A2.length) := by
  intro s
  induction s with
  | nil =>
    intro h
    have hpfx : pat <+: ([] : List Char) :=
      List.isPrefixOf_iff_prefix.mp (by simpa [occursIn] using h)
    exact absurd (List.prefix_nil.mp hpfx) hp
  | cons c rest ih =>
    intro h
    by_cases hpre : pat.isPrefixOf (c :: rest) = true
    · obtain ⟨t, ht⟩ := List.isPrefixOf_iff_prefix.mp hpre
      refine ⟨[], t, ?_, by simpa using ht.symm, fun A2 B2 _ => Nat.zero_le _⟩
      simp only [splitAtFirst, if_pos hpre]
      rw [← ht, List.drop_left]
    · have hpre2 : pat.isPrefixOf (c :: rest) = false := eq_false_of_ne_true hpre
      have h2 : occursIn pat rest = true := by
        rw [occursIn] at h
        simpa [hpre2] using h
      obtain ⟨A, B, hsp, hAB, hmin⟩ := ih h2
      refine ⟨c :: A, B, ?_, by simp [hAB], ?_⟩
      · simp [splitAtFirst, hpre2, hsp]
      · intro A2 B2 heq
        cases A2 with
        | nil =>
          exact absurd (List.isPrefixOf_iff_prefix.mpr
            ⟨B2, by simpa using heq.symm⟩) hpre
        | cons a2 t2 =>
          have htail : rest = t2 ++ pat ++ B2 := by
            simp only [List.cons_append, List.cons.injEq] at heq
            exact heq.2
          simpa using Nat.succ_le_succ (hmin t2 B2 htail)

/-- A replacement text containing no dollar character passes through the
substitution of String.prototype.replace unchanged. -/
theorem getSubstitution_eq_self (matched pre post : List Char) :
    ∀ repl : List Char, (∀ c ∈ repl, c ≠ '$') →
      getSubstitution matched pre post repl = repl := by
  intro repl
  induction repl with
  | nil => intro _; rfl
  | cons c rest ih =>
    intro h
    have hc : c ≠ '$' := h c (by simp)
    have hrest := ih fun x hx => h x (by simp [hx])
    cases rest with
    | nil => simp [getSubstitution]
    | cons d rest2 => simp [getSubstitution, hc, hrest]

/--
Claim C9, counterexample: the replacement text of String.prototype.replace
is subject to dollar-sequence substitution, and the css payload is
interpolated into it, so css containing such a sequence is not inserted
verbatim. For html consisting of one head element and css the two
characters dollar ampersand, the exported content replaces the sequence
with the matched closing head tag: the css text occurs nowhere in the
output, although the stylesheet block built from this css does contain
it, so the output contains no stylesheet block containing the css text.
-/
theorem export_css_dollar_counterexample :
    injectCss "<head></head>".data "$&".data =
      "<head><style>\n</head>\n</style>\n</head>".data ∧
    occursIn "$&".data (injectCss "<head></head>".data "$&".data) = false ∧
    occursIn "$&".data (styleBlockFor "$&".data) = true :=
  ⟨by decide, by decide, by decide⟩

/--
Claim C9, amended: on an export response with nonempty css, when the html
contains no closing head tag the stylesheet block holding the css
verbatim is prepended to the unchanged html, for every css; when the html
does contain one and the css holds no dollar character — so the
replacement-string substitution of String.replace leaves it untouched —
the produced content is the original html with exactly one stylesheet
block holding the css inserted immediately before the first closing head
tag (the decomposition prefix is minimal) and everything else, the body
included, unchanged. Css containing dollar sequences is rewritten by that
substitution in the head-tag branch instead of appearing verbatim.
-/
theorem export_css_injection (html css : List Char) (hcss : css ≠ []) :
    (occursIn headCloseTag html = false →
      injectCss html css = styleBlockFor css ++ html) ∧
    ((∀ c ∈ css, c ≠ '$') → occursIn headCloseTag html = true →
      ∃ A B, html = A ++ headCloseTag ++ B ∧
        injectCss html css = A ++ styleBlockFor css ++ (headCloseTag ++ B) ∧
        (∀ A2 B2, html = A2 ++ headCloseTag ++ B2 → A.length ≤ A2.length)) := by
  have hcssE : css.isEmpty = false := by
    cases css with
    | nil => exact absurd rfl hcss
    | cons c t => rfl
  constructor
  · intro h
    simp [injectCss, hcssE, h]
  · intro hnd h
    obtain ⟨A, B, hsp, hAB, hmin⟩ := splitAtFirst_spec headCloseTag (by decide) html h
    have hrepl : ∀ c ∈ styleBlockFor css ++ headCloseTag, c ≠ '$' := by
      have h1 : ∀ x ∈ "<style>\n".data, x ≠ '$' := by decide
      have h2 : ∀ x ∈ "\n</style>\n".data, x ≠ '$' := by decide
      have h3 : ∀ x ∈ headCloseTag, x ≠ '$' := by decide
      intro x hx
      rcases List.mem_append.mp hx with hx | hx
      · rcases List.mem_append.mp hx with hx | hx
        · rcases List.mem_append.mp hx with hx | hx
          · exact h1 x hx
          · exact hnd x hx
        · exact h2 x hx
      · exact h3 x hx
    refine ⟨A, B, hAB, ?_, hmin⟩
    simp [injectCss, hcssE, h, replaceFirst, hsp,
      getSubstitution_eq_self headCloseTag A B _ hrepl]

/--
Claim C9, witness: the amended theorem applied twice at concrete inputs.
First the design-document scenario — html a bare paragraph with no head
tag, css a single rule — where the block is prepended and the original
html is the unchanged suffix; second a html document with a head element
and the same dollar-free css, where a decomposition around the first
closing head tag exists with the block inserted before it.
-/
theorem export_css_injection_witness :
    (injectCss "<p>Hi</p>".data "p\x7bcolor:red\x7d".data =
      styleBlockFor "p\x7bcolor:red\x7d".data ++ "<p>Hi</p>".data) ∧
    (∃ A B, "<head></head><body>B</body>".data = A ++ headCloseTag ++ B ∧
      injectCss "<head></head><body>B</body>".data "p\x7bcolor:red\x7d".data =
        A ++ styleBlockFor "p\x7bcolor:red\x7d".data ++ (headCloseTag ++ B) ∧
      (∀ A2 B2, "<head></head><body>B</body>".data = A2 ++ headCloseTag ++ B2 →
        A.length ≤ A2.length)) :=
  ⟨(export_css_injection "<p>Hi</p>".data "p\x7bcolor:red\x7d".data
      (by decide)).1 (by decide),
   (export_css_injection "<head></head><body>B</body>".data
      "p\x7bcolor:red\x7d".data (by decide)).2 (by decide) (by decide)⟩

end PortfolioAI
